import Mathlib

/-
Verification of the procedural grass engine (three-js-grass).

The development shallowly embeds the two grass-generation variants of
src/utils/grass.js:
  * the rich variant (createGrassMesh with gust / micro-movement / wave
    parameters, triangle-fan blade indices, per-blade height, stiffness and
    phase attributes), and
  * the simple variant (createGrassMesh with the reduced wind model and
    two-row-strip blade indices).

JS numbers are modelled as real numbers; Math.random is modelled as an
explicit stream of draws (a function from the draw index to the drawn
value, assumed to lie in [0,1) where a claim needs it).  Typed arrays are
modelled as a length together with an index function, with the JS
behaviours that matter here: construction with a negative length throws a
RangeError, and out-of-range stores are silently ignored.

For the GPU vertex stage the file has, in addition, a definedness model
over Option Real in which the value none marks a non-finite float
(NaN or infinity): division by zero, inversesqrt of a non-positive
argument and pow of a negative base produce none, and none is absorbing
for every other operation.  This is used to settle the NaN-safety claims
about the shader.
-/

open scoped Classical

namespace GrassVerify

/-! ## Wind signal combination (vertex shader, scalar part)

The noise samples, gust, spatial wave and individual phase enter the
combination step as already-computed scalars, so the combination is
embedded as a function of those values. -/

/-- Rich variant vertex shader: the multi-layered wind signal
(grass.js, the windIntensity expression of the rich variant), followed by no
stiffness division.  Transcribed from source. -/
noncomputable def richWindSignal (windTime noise1 noise2 noise3 posX posZ gust
    spatialWave individualPhase turbulence intensity : ℝ) : ℝ :=
  (Real.sin (windTime + noise1 * 2.0 + posX * 0.01) * 0.5 +
   Real.cos (windTime * 0.5 + noise2 * 2.0 + posZ * 0.01) * 0.3 +
   Real.sin (windTime * 0.2 + noise3 * 1.0) * 0.2 +
   gust +
   spatialWave * 0.3 +
   individualPhase) * turbulence * intensity

/-- Simple variant vertex shader: the reduced wind signal
(grass.js, the windIntensity expression of the simple variant).
Transcribed from source. -/
noncomputable def simpleWindSignal (windTime noise1 noise2 turbulence intensity : ℝ) : ℝ :=
  (Real.sin (windTime + noise1 * 2.0) * 0.7 +
   Real.cos (windTime * 1.5 + noise2 * 2.0) * 0.5) * turbulence * intensity

/-- Modelled from the spec: the raw wind signal as the specification words it,
with the noise3 term present - weighted sum of the three periodic terms plus
gust, spatialWave times 0.3 and individualPhase, the whole sum multiplied by
turbulence times intensity. -/
noncomputable def specWindSignal (windTime noise1 noise2 noise3 posX posZ gust
    spatialWave individualPhase turbulence intensity : ℝ) : ℝ :=
  (Real.sin (windTime + noise1 * 2 + posX * 0.01) * 0.5 +
   Real.cos (windTime * 0.5 + noise2 * 2 + posZ * 0.01) * 0.3 +
   Real.sin (windTime * 0.2 + noise3) * 0.2 +
   gust +
   spatialWave * 0.3 +
   individualPhase) * (turbulence * intensity)

/-- Modelled from the spec: the raw wind signal with the noise3 term
omitted, as the specification allows for the simplified variant. -/
noncomputable def specWindSignalNo3 (windTime noise1 noise2 posX posZ gust
    spatialWave individualPhase turbulence intensity : ℝ) : ℝ :=
  (Real.sin (windTime + noise1 * 2 + posX * 0.01) * 0.5 +
   Real.cos (windTime * 0.5 + noise2 * 2 + posZ * 0.01) * 0.3 +
   gust +
   spatialWave * 0.3 +
   individualPhase) * (turbulence * intensity)

/-! ## Height factor and sway (rich variant, scalar model) -/

/-- Rich variant: the vertex y coordinate scaled by the ratio of the
instance blade height to the base blade height. Transcribed from source. -/
noncomputable def richScaledY (posY aBladeHeight uBladeHeight : ℝ) : ℝ :=
  posY * (aBladeHeight / uBladeHeight)

/-- Rich variant: non-linear height factor
pow(scaledPosition.y / aBladeHeight, 2.0). Transcribed from source. -/
noncomputable def richHeightFactor (posY aBladeHeight uBladeHeight : ℝ) : ℝ :=
  (richScaledY posY aBladeHeight uBladeHeight / aBladeHeight) ^ (2.0 : ℝ)

/-- Rich variant: the final sway amount, from the wind signal after the
stiffness division (windIntensity times (1.0 / aStiffness)), the height
factor and the noise modulation factor. Transcribed from source. -/
noncomputable def richSway (windSignal stiffness heightFactor noiseFactor
    noise1 noise2 : ℝ) : ℝ :=
  (windSignal * (1.0 / stiffness)) * heightFactor *
    (1.0 + noiseFactor * (noise1 + noise2))

/-- Rich variant: sway of one vertex as a function of the per-instance
stiffness and the remaining (stiffness-independent) evaluation inputs,
composing the wind signal, height factor and noise modulation exactly as
the shader does. -/
noncomputable def richVertexSwayAt (stiffness windTime noise1 noise2 noise3
    posX posZ gust spatialWave individualPhase turbulence intensity
    vertexY aBladeHeight uBladeHeight noiseFactor : ℝ) : ℝ :=
  richSway
    (richWindSignal windTime noise1 noise2 noise3 posX posZ gust
      spatialWave individualPhase turbulence intensity)
    stiffness
    (richHeightFactor vertexY aBladeHeight uBladeHeight)
    noiseFactor noise1 noise2

/-! ## Uniform state and the updateWind entry points -/

/-- A JS exception relevant to this program. -/
inductive JsError where
  | referenceError : JsError
  | rangeError : JsError
deriving DecidableEq

/-- The shader uniforms of the rich variant material. -/
structure WindUniforms where
  uTime : ℝ
  uWindSpeed : ℝ
  uWindDirection : ℝ × ℝ × ℝ
  uColorBottom : ℝ × ℝ × ℝ
  uColorTop : ℝ × ℝ × ℝ
  uWindNoiseFactor : ℝ
  uWindTurbulence : ℝ
  uWindIntensity : ℝ
  uBladeHeight : ℝ
  uBladeWidth : ℝ
  uGustFrequency : ℝ
  uGustIntensity : ℝ
  uMicroMovement : ℝ
  uWavePropagation : ℝ

/-- The shader uniforms of the simple variant material (no gust,
micro-movement or wave-propagation uniforms). -/
structure SimpleWindUniforms where
  uTime : ℝ
  uWindSpeed : ℝ
  uWindDirection : ℝ × ℝ × ℝ
  uColorBottom : ℝ × ℝ × ℝ
  uColorTop : ℝ × ℝ × ℝ
  uWindNoiseFactor : ℝ
  uWindTurbulence : ℝ
  uWindIntensity : ℝ
  uBladeHeight : ℝ
  uBladeWidth : ℝ

/-- The options object passed to updateWind; a field that the caller
omitted is none. -/
structure WindUpdateOptions where
  windSpeed : Option ℝ := none
  windDirection : Option (ℝ × ℝ × ℝ) := none
  windIntensity : Option ℝ := none
  windTurbulence : Option ℝ := none
  gustFrequency : Option ℝ := none
  gustIntensity : Option ℝ := none
  microMovement : Option ℝ := none
  wavePropagation : Option ℝ := none

/-- An options object with every field omitted. -/
def emptyWindOptions : WindUpdateOptions := {}

/-- Simple variant updateWind: destructures the options with the constant
defaults 5.5, (1,0,1), 1.0 and 0.8, then overwrites the time, wind and
noise-factor uniforms.  noiseRand models the Math.random draw for the
wind noise factor.  Transcribed from source. -/
noncomputable def updateWindSimple (time noiseRand : ℝ) (opts : WindUpdateOptions)
    (u : SimpleWindUniforms) : SimpleWindUniforms :=
  { u with
    uTime := time
    uWindSpeed := opts.windSpeed.getD 5.5
    uWindDirection := opts.windDirection.getD (1, 0, 1)
    uWindIntensity := opts.windIntensity.getD 1.0
    uWindTurbulence := opts.windTurbulence.getD 0.8
    uWindNoiseFactor := 0.5 + noiseRand * 0.5 }

/-- Rich variant updateWind.  The destructuring defaults are the constants
3.0, (1,0,1), 0.5 and 0.7 for the first four fields and the creation-time
values for gustFrequency and gustIntensity; the defaults written for
microMovement and wavePropagation read the very binding being initialized
(temporal dead zone), so a call omitting either field throws a
ReferenceError before any uniform is written.  Transcribed from source. -/
noncomputable def updateWindRich (creationGustFrequency creationGustIntensity : ℝ)
    (time noiseRand : ℝ) (opts : WindUpdateOptions) (u : WindUniforms) :
    Except JsError WindUniforms :=
  match opts.microMovement, opts.wavePropagation with
  | some micro, some wave =>
    .ok { u with
      uTime := time
      uWindSpeed := opts.windSpeed.getD 3.0
      uWindDirection := opts.windDirection.getD (1, 0, 1)
      uWindIntensity := opts.windIntensity.getD 0.5
      uWindTurbulence := opts.windTurbulence.getD 0.7
      uGustFrequency := opts.gustFrequency.getD creationGustFrequency
      uGustIntensity := opts.gustIntensity.getD creationGustIntensity
      uMicroMovement := micro
      uWavePropagation := wave
      uWindNoiseFactor := 0.5 + noiseRand * 0.5 }
  | _, _ => .error .referenceError

/-- The rich variant material uniforms as created with the default
createGrassMesh options (colors are the 0x7f7f19 and 0x0c3302 hex triples
scaled to [0,1]). -/
noncomputable def defaultRichUniforms : WindUniforms where
  uTime := 0
  uWindSpeed := 3.0
  uWindDirection := (1, 0, 1)
  uColorBottom := (12 / 255, 51 / 255, 2 / 255)
  uColorTop := (127 / 255, 127 / 255, 25 / 255)
  uWindNoiseFactor := 1.0
  uWindTurbulence := 0.7
  uWindIntensity := 1.4
  uBladeHeight := 15
  uBladeWidth := 0.5
  uGustFrequency := 0.15
  uGustIntensity := 0.35
  uMicroMovement := 0.2
  uWavePropagation := 0.05

/-- The simple variant material uniforms as created with the default
createGrassMesh options. -/
noncomputable def defaultSimpleUniforms : SimpleWindUniforms where
  uTime := 0
  uWindSpeed := 3.0
  uWindDirection := (1, 0, 1)
  uColorBottom := (12 / 255, 51 / 255, 2 / 255)
  uColorTop := (127 / 255, 127 / 255, 25 / 255)
  uWindNoiseFactor := 1.0
  uWindTurbulence := 0.7
  uWindIntensity := 0.5
  uBladeHeight := 15
  uBladeWidth := 0.1

/-! ## Typed arrays

A Float32Array or Uint32Array is modelled as a length together with an
index function.  Constructing one with a negative length throws a
RangeError; storing at an out-of-range index is silently ignored (JS
typed-array semantics). -/

/-- A Float32Array: length and contents (element values as reals). -/
structure JsFloatArray where
  len : ℤ
  data : ℤ → ℝ

/-- A Uint32Array: length and contents (element values as naturals). -/
structure JsUintArray where
  len : ℤ
  data : ℤ → ℕ

/-- new Float32Array(n): zero-filled, RangeError when n is negative. -/
def jsNewFloatArray (n : ℤ) : Except JsError JsFloatArray :=
  if n < 0 then .error .rangeError else .ok ⟨n, fun _ => 0⟩

/-- new Uint32Array(n): zero-filled, RangeError when n is negative. -/
def jsNewUintArray (n : ℤ) : Except JsError JsUintArray :=
  if n < 0 then .error .rangeError else .ok ⟨n, fun _ => 0⟩

/-- arr[i] = v on a Float32Array: in-range stores update, out-of-range
stores are ignored. -/
def JsFloatArray.setAt (a : JsFloatArray) (i : ℤ) (v : ℝ) : JsFloatArray :=
  if 0 ≤ i ∧ i < a.len then ⟨a.len, fun j => if j = i then v else a.data j⟩ else a

/-- arr[i] = v on a Uint32Array: in-range stores update, out-of-range
stores are ignored. -/
def JsUintArray.setAt (a : JsUintArray) (i : ℤ) (v : ℕ) : JsUintArray :=
  if 0 ≤ i ∧ i < a.len then ⟨a.len, fun j => if j = i then v else a.data j⟩ else a

/-- new Float32Array(n) with every in-range slot i already holding f i;
models an allocation followed by a loop that stores f i at each index i
exactly once. -/
def jsFillFloatArray (n : ℤ) (f : ℤ → ℝ) : Except JsError JsFloatArray :=
  if n < 0 then .error .rangeError
  else .ok ⟨n, fun j => if 0 ≤ j ∧ j < n then f j else 0⟩

/-! ## Blade geometry builders -/

/-- The middle-vertex loop of the rich variant generateBladeVertices:
iterations i = 1 .. k write slots 3i, 3i+1, 3i+2 with the jittered x, the
curved y and the jittered z.  The random stream r is the one of the
enclosing call: draw 0 was consumed by actualBladeHeight, iteration i
consumes draws 2i-1 (x jitter) and 2i (z jitter).  Transcribed from
source. -/
noncomputable def bladeMiddleWrites (actualHeight width : ℝ) (vc : ℤ)
    (r : ℕ → ℝ) (a : JsFloatArray) : ℕ → JsFloatArray
  | 0 => a
  | Nat.succ k =>
    let prev := bladeMiddleWrites actualHeight width vc r a k
    let i : ℕ := k + 1
    let t : ℝ := (i : ℝ) / ((vc : ℝ) - 1)
    let curveFactor : ℝ := Real.sin (Real.pi * t) * actualHeight * 0.25
    ((prev.setAt (3 * (i : ℤ)) ((r (2 * i - 1) - 0.5) * width * (1 - |t - 0.5| * 2))).setAt
        (3 * (i : ℤ) + 1) (t * actualHeight + curveFactor)).setAt
      (3 * (i : ℤ) + 2) ((r (2 * i) - 0.5) * 0.05)

/-- Rich variant generateBladeVertices: randomizes the blade height, then
writes the base vertex, the tip vertex and the curved middle vertices into
a Float32Array of length verticesCount * 3.  The loop runs for
i = 1 .. verticesCount - 2.  Transcribed from source. -/
noncomputable def generateBladeVerticesRich (bladeHeightVariation baseBladeHeight
    bladeWidth : ℝ) (verticesCount : ℤ) (r : ℕ → ℝ) :
    Except JsError JsFloatArray := do
  let actualBladeHeight :=
    baseBladeHeight * (1 - bladeHeightVariation / 2 + r 0 * bladeHeightVariation)
  let a ← jsNewFloatArray (verticesCount * 3)
  let a := ((a.setAt 0 (-(bladeWidth / 2))).setAt 1 0).setAt 2 0
  let a := ((a.setAt ((verticesCount - 1) * 3) (bladeWidth / 2)).setAt
      ((verticesCount - 1) * 3 + 1) actualBladeHeight).setAt
    ((verticesCount - 1) * 3 + 2) 0
  pure (bladeMiddleWrites actualBladeHeight bladeWidth verticesCount r a
    (verticesCount - 2).toNat)

/-- The middle-vertex loop of the simple variant generateBladeVertices:
same jitter shape, curve factor 0.2 and the raw (non-randomized) blade
height.  Iteration i consumes draws 2(i-1) (x jitter) and 2(i-1)+1
(z jitter).  Transcribed from source. -/
noncomputable def bladeMiddleWritesSimple (bladeHeight width : ℝ) (vc : ℤ)
    (r : ℕ → ℝ) (a : JsFloatArray) : ℕ → JsFloatArray
  | 0 => a
  | Nat.succ k =>
    let prev := bladeMiddleWritesSimple bladeHeight width vc r a k
    let i : ℕ := k + 1
    let t : ℝ := (i : ℝ) / ((vc : ℝ) - 1)
    let curveFactor : ℝ := Real.sin (Real.pi * t) * bladeHeight * 0.2
    ((prev.setAt (3 * (i : ℤ)) ((r (2 * k) - 0.5) * width * (1 - |t - 0.5| * 2))).setAt
        (3 * (i : ℤ) + 1) (t * bladeHeight + curveFactor)).setAt
      (3 * (i : ℤ) + 2) ((r (2 * k + 1) - 0.5) * 0.05)

/-- Simple variant generateBladeVertices: base vertex, tip vertex at the
raw blade height, curved middle vertices.  Transcribed from source. -/
noncomputable def generateBladeVerticesSimple (bladeHeight bladeWidth : ℝ)
    (verticesCount : ℤ) (r : ℕ → ℝ) : Except JsError JsFloatArray := do
  let a ← jsNewFloatArray (verticesCount * 3)
  let a := ((a.setAt 0 (-(bladeWidth / 2))).setAt 1 0).setAt 2 0
  let a := ((a.setAt ((verticesCount - 1) * 3) (bladeWidth / 2)).setAt
      ((verticesCount - 1) * 3 + 1) bladeHeight).setAt
    ((verticesCount - 1) * 3 + 2) 0
  pure (bladeMiddleWritesSimple bladeHeight bladeWidth verticesCount r a
    (verticesCount - 2).toNat)

/-- The index loop of the rich variant generateBladeIndices: iteration
i = 0 .. k-1 writes the fan triangle (0, i+1, i+2) at slots 3i .. 3i+2.
Transcribed from source. -/
def fanIndexWrites (a : JsUintArray) : ℕ → JsUintArray
  | 0 => a
  | Nat.succ k =>
    (((fanIndexWrites a k).setAt (3 * (k : ℤ)) 0).setAt (3 * (k : ℤ) + 1)
        (k + 1)).setAt (3 * (k : ℤ) + 2) (k + 2)

/-- Rich variant generateBladeIndices: a Uint32Array of length
(verticesCount - 2) * 3 holding a triangle fan from the base vertex.
Transcribed from source. -/
def generateBladeIndicesRich (verticesCount : ℤ) : Except JsError JsUintArray := do
  let a ← jsNewUintArray ((verticesCount - 2) * 3)
  pure (fanIndexWrites a (verticesCount - 2).toNat)

/-- The index loop of the simple variant generateBladeIndices: iteration
i = 0 .. k-1 writes the two strip triangles
(i, i+1, verticesCount+i) and (i, verticesCount+i, verticesCount+i+1)
at slots 6i .. 6i+5.  Transcribed from source. -/
def stripIndexWrites (vc : ℤ) (a : JsUintArray) : ℕ → JsUintArray
  | 0 => a
  | Nat.succ k =>
    ((((((stripIndexWrites vc a k).setAt (6 * (k : ℤ)) k).setAt
                (6 * (k : ℤ) + 1) (k + 1)).setAt
              (6 * (k : ℤ) + 2) (vc.toNat + k)).setAt
            (6 * (k : ℤ) + 3) k).setAt
          (6 * (k : ℤ) + 4) (vc.toNat + k)).setAt
      (6 * (k : ℤ) + 5) (vc.toNat + k + 1)

/-- Simple variant generateBladeIndices: a Uint32Array of length
(verticesCount - 1) * 6 holding a two-row strip whose second row starts at
vertex index verticesCount.  Transcribed from source. -/
def generateBladeIndicesSimple (verticesCount : ℤ) : Except JsError JsUintArray := do
  let a ← jsNewUintArray ((verticesCount - 1) * 6)
  pure (stripIndexWrites verticesCount a (verticesCount - 1).toNat)

/-! ## Instance attribute packing -/

/-- One placed grass blade: the per-instance data generated at build time.
Position and rotation come from the instance matrix placement loop;
height and stiffness from the per-blade attribute loop; phaseOffset from
the phase attribute loop. -/
structure GrassInstance where
  posX : ℝ
  posY : ℝ
  posZ : ℝ
  rotX : ℝ
  rotY : ℝ
  rotZ : ℝ
  height : ℝ
  stiffness : ℝ
  phaseOffset : ℝ

/-- The per-instance data of the rich variant createGrassMesh for n
blades: instance i draws position x, z and the three rotation components
from stream rMat (five draws per instance, in source order), its height
and stiffness from stream rAttr (two draws per instance) and its phase
offset from stream rPhase (one draw per instance).  Transcribed from the
three per-instance loops of the source. -/
noncomputable def packInstances (n : ℕ) (bladeHeight bladeHeightVariation
    patchSize : ℝ) (rAttr rPhase rMat : ℕ → ℝ) : List GrassInstance :=
  (List.range n).map fun i =>
    { posX := (rMat (5 * i) - 0.5) * patchSize
      posY := 0
      posZ := (rMat (5 * i + 1) - 0.5) * patchSize
      rotX := (rMat (5 * i + 2) - 0.5) * 0.5
      rotY := rMat (5 * i + 3) * Real.pi * 2
      rotZ := (rMat (5 * i + 4) - 0.5) * 0.5
      height := bladeHeight * (1 - bladeHeightVariation / 2 +
        rAttr (2 * i) * bladeHeightVariation)
      stiffness := 0.7 + rAttr (2 * i + 1) * 0.6
      phaseOffset := rPhase i * Real.pi * 2 }

/-! ## Field build (rich variant createGrassMesh) -/

/-- The build-time configuration of the rich variant createGrassMesh
(geometry-relevant options; defaults as in the source destructuring). -/
structure GrassConfig where
  bladeHeight : ℝ := 15
  bladeHeightVariation : ℝ := 0.4
  bladeWidth : ℝ := 0.5
  grassBlades : ℤ := 100000
  grassPatchSize : ℝ := 200
  verticesPerBlade : ℤ := 3

/-- The data a successful rich variant createGrassMesh call allocates and
fills: the per-blade scratch arrays, the blade geometry, the per-instance
attribute arrays and the instance matrix array. -/
structure GrassField where
  bladeHeightsArr : JsFloatArray
  bladeStiffnessArr : JsFloatArray
  vertices : JsFloatArray
  indices : JsUintArray
  instanceHeightsArr : JsFloatArray
  instanceStiffnessArr : JsFloatArray
  instancePhaseArr : JsFloatArray
  instanceMatrixArr : JsFloatArray

/-- Rich variant createGrassMesh, allocation order as in the source: the
two per-blade scratch arrays and their fill loop, the blade vertices and
indices, the three instanced attribute arrays and their fill loop, and the
16-floats-per-instance matrix array (whose element values are modelled
separately by packInstances).  The function performs no validation of its
own: the only failures are RangeErrors thrown by a typed-array
construction with a negative computed length.  rAttr, rVert and rPhase
are the Math.random streams of the height/stiffness loop, the blade
vertex builder and the phase loop. -/
noncomputable def createGrassMeshRich (cfg : GrassConfig)
    (rAttr rVert rPhase : ℕ → ℝ) : Except JsError GrassField := do
  let heights ← jsFillFloatArray cfg.grassBlades fun i =>
    cfg.bladeHeight * (1 - cfg.bladeHeightVariation / 2 +
      rAttr (2 * i.toNat) * cfg.bladeHeightVariation)
  let stiff ← jsFillFloatArray cfg.grassBlades fun i =>
    0.7 + rAttr (2 * i.toNat + 1) * 0.6
  let verts ← generateBladeVerticesRich cfg.bladeHeightVariation cfg.bladeHeight
    cfg.bladeWidth cfg.verticesPerBlade rVert
  let idx ← generateBladeIndicesRich cfg.verticesPerBlade
  let instH ← jsFillFloatArray cfg.grassBlades fun i => heights.data i
  let instS ← jsFillFloatArray cfg.grassBlades fun i => stiff.data i
  let instP ← jsFillFloatArray cfg.grassBlades fun i => rPhase i.toNat * Real.pi * 2
  let imat ← jsNewFloatArray (cfg.grassBlades * 16)
  pure ⟨heights, stiff, verts, idx, instH, instS, instP, imat⟩

/-! ## Definedness model of GLSL floats

GF is a GLSL float value in which none marks a non-finite result (NaN or
infinity).  Division by zero, inversesqrt of a non-positive argument and
pow of a negative base (or of a zero base with non-positive exponent)
produce none; every operation propagates none.  This is the
NaN-propagation behaviour of IEEE floats for the operations the shader
uses, with NaN and infinity merged into one marker. -/

def GF : Type := Option ℝ

/-- Embed a finite value. -/
def gf (x : ℝ) : GF := some x

def gadd : GF → GF → GF
  | some a, some b => some (a + b)
  | _, _ => none

def gsub : GF → GF → GF
  | some a, some b => some (a - b)
  | _, _ => none

def gmul : GF → GF → GF
  | some a, some b => some (a * b)
  | _, _ => none

def gneg : GF → GF
  | some a => some (-a)
  | none => none

noncomputable def gdiv : GF → GF → GF
  | some a, some b => if b = 0 then none else some (a / b)
  | _, _ => none

noncomputable def gsin : GF → GF
  | some a => some (Real.sin a)
  | none => none

noncomputable def gcos : GF → GF
  | some a => some (Real.cos a)
  | none => none

def gabs : GF → GF
  | some a => some |a|
  | none => none

noncomputable def gfloor : GF → GF
  | some a => some (⌊a⌋ : ℤ)
  | none => none

noncomputable def gmin : GF → GF → GF
  | some a, some b => some (min a b)
  | _, _ => none

noncomputable def gmax : GF → GF → GF
  | some a, some b => some (max a b)
  | _, _ => none

/-- GLSL step(edge, x) = x < edge ? 0 : 1. -/
noncomputable def gstep : GF → GF → GF
  | some edge, some x => some (if x < edge then 0 else 1)
  | _, _ => none

/-- GLSL pow: undefined (NaN) for a negative base and for a zero base
with non-positive exponent; real rpow otherwise. -/
noncomputable def gpow : GF → GF → GF
  | some a, some b =>
    if a < 0 then none else if a = 0 ∧ b ≤ 0 then none else some (a ^ b)
  | _, _ => none

/-- GLSL inversesqrt: non-finite for a non-positive argument. -/
noncomputable def ginversesqrt : GF → GF
  | some a => if a ≤ 0 then none else some (1 / Real.sqrt a)
  | none => none

/-- GLSL mod(x, y) = x - y * floor(x / y). -/
noncomputable def gmod (x y : GF) : GF :=
  gsub x (gmul y (gfloor (gdiv x y)))

/-- A GLSL vec3 in the definedness model. -/
structure GVec3 where
  x : GF
  y : GF
  z : GF

/-- A GLSL vec4 in the definedness model. -/
structure GVec4 where
  x : GF
  y : GF
  z : GF
  w : GF

def v3 (a b c : GF) : GVec3 := ⟨a, b, c⟩

def v4 (a b c d : GF) : GVec4 := ⟨a, b, c, d⟩

def v3addv (a b : GVec3) : GVec3 := ⟨gadd a.x b.x, gadd a.y b.y, gadd a.z b.z⟩

def v3subv (a b : GVec3) : GVec3 := ⟨gsub a.x b.x, gsub a.y b.y, gsub a.z b.z⟩

/-- Vector plus broadcast scalar. -/
def v3addS (a : GVec3) (s : GF) : GVec3 := ⟨gadd a.x s, gadd a.y s, gadd a.z s⟩

/-- Vector minus broadcast scalar. -/
def v3subS (a : GVec3) (s : GF) : GVec3 := ⟨gsub a.x s, gsub a.y s, gsub a.z s⟩

/-- Broadcast scalar minus vector. -/
def v3rsubS (s : GF) (a : GVec3) : GVec3 := ⟨gsub s a.x, gsub s a.y, gsub s a.z⟩

def v3mulS (a : GVec3) (s : GF) : GVec3 := ⟨gmul a.x s, gmul a.y s, gmul a.z s⟩

def gdot3 (a b : GVec3) : GF :=
  gadd (gadd (gmul a.x b.x) (gmul a.y b.y)) (gmul a.z b.z)

noncomputable def v3floor (a : GVec3) : GVec3 := ⟨gfloor a.x, gfloor a.y, gfloor a.z⟩

noncomputable def v3min (a b : GVec3) : GVec3 :=
  ⟨gmin a.x b.x, gmin a.y b.y, gmin a.z b.z⟩

noncomputable def v3max (a b : GVec3) : GVec3 :=
  ⟨gmax a.x b.x, gmax a.y b.y, gmax a.z b.z⟩

noncomputable def v3modS (a : GVec3) (s : GF) : GVec3 :=
  ⟨gmod a.x s, gmod a.y s, gmod a.z s⟩

/-- GLSL normalize(v) = v * inversesqrt(dot(v, v)); non-finite on the zero
vector. -/
noncomputable def gnormalize3 (a : GVec3) : GVec3 :=
  v3mulS a (ginversesqrt (gdot3 a a))

def v4addv (a b : GVec4) : GVec4 :=
  ⟨gadd a.x b.x, gadd a.y b.y, gadd a.z b.z, gadd a.w b.w⟩

def v4subv (a b : GVec4) : GVec4 :=
  ⟨gsub a.x b.x, gsub a.y b.y, gsub a.z b.z, gsub a.w b.w⟩

def v4addS (a : GVec4) (s : GF) : GVec4 :=
  ⟨gadd a.x s, gadd a.y s, gadd a.z s, gadd a.w s⟩

/-- Broadcast scalar minus vector. -/
def v4rsubS (s : GF) (a : GVec4) : GVec4 :=
  ⟨gsub s a.x, gsub s a.y, gsub s a.z, gsub s a.w⟩

def v4mulS (a : GVec4) (s : GF) : GVec4 :=
  ⟨gmul a.x s, gmul a.y s, gmul a.z s, gmul a.w s⟩

def v4mulv (a b : GVec4) : GVec4 :=
  ⟨gmul a.x b.x, gmul a.y b.y, gmul a.z b.z, gmul a.w b.w⟩

def gdot4 (a b : GVec4) : GF :=
  gadd (gadd (gadd (gmul a.x b.x) (gmul a.y b.y)) (gmul a.z b.z)) (gmul a.w b.w)

noncomputable def v4floor (a : GVec4) : GVec4 :=
  ⟨gfloor a.x, gfloor a.y, gfloor a.z, gfloor a.w⟩

def v4abs (a : GVec4) : GVec4 := ⟨gabs a.x, gabs a.y, gabs a.z, gabs a.w⟩

def v4neg (a : GVec4) : GVec4 := ⟨gneg a.x, gneg a.y, gneg a.z, gneg a.w⟩

noncomputable def v4modS (a : GVec4) (s : GF) : GVec4 :=
  ⟨gmod a.x s, gmod a.y s, gmod a.z s, gmod a.w s⟩

/-- The snoise function of the grass vertex shaders (both variants use the
same text), transcribed line by line into the definedness model.
Swizzles are written out componentwise. -/
noncomputable def snoiseG (v : GVec3) : GF :=
  let Cx : GF := gf (1.0 / 6.0)
  let Cy : GF := gf (1.0 / 3.0)
  -- i = floor(v + dot(v, C.yyy)); x0 = v - i + dot(i, C.xxx)
  let iv := v3floor (v3addS v (gdot3 v (v3 Cy Cy Cy)))
  let x0 := v3addS (v3subv v iv) (gdot3 iv (v3 Cx Cx Cx))
  -- g = step(x0.yzx, x0.xyz); l = 1.0 - g
  let g := v3 (gstep x0.y x0.x) (gstep x0.z x0.y) (gstep x0.x x0.z)
  let l := v3rsubS (gf 1.0) g
  -- i1 = min(g.xyz, l.zxy); i2 = max(g.xyz, l.zxy)
  let i1 := v3min g (v3 l.z l.x l.y)
  let i2 := v3max g (v3 l.z l.x l.y)
  -- x1 = x0 - i1 + C.xxx; x2 = x0 - i2 + C.yyy; x3 = x0 - D.yyy
  let x1 := v3addS (v3subv x0 i1) Cx
  let x2 := v3addS (v3subv x0 i2) Cy
  let x3 := v3subS x0 (gf 0.5)
  -- i = mod(i, 289.0)
  let im := v3modS iv (gf 289.0)
  -- p = mod(((i.z + vec4(0, i1.z, i2.z, 1)) + vec4(0, i1.x, i2.x, 1)), 289)
  let p := v4modS
    (v4addv (v4addS (v4 (gf 0.0) i1.z i2.z (gf 1.0)) im.z)
      (v4 (gf 0.0) i1.x i2.x (gf 1.0)))
    (gf 289.0)
  -- n_ = 1/7; ns = n_ * D.wyz - D.xzx
  let n7 : GF := gf (1.0 / 7.0)
  let nsx := gsub (gmul n7 (gf 2.0)) (gf 0.0)
  let nsy := gsub (gmul n7 (gf 0.5)) (gf 1.0)
  let nsz := gsub (gmul n7 (gf 1.0)) (gf 0.0)
  -- j = p - 49 * floor(p * ns.z * ns.z)
  let j := v4subv p (v4mulS (v4floor (v4mulS (v4mulS p nsz) nsz)) (gf 49.0))
  -- x_ = floor(j * ns.z); y_ = floor(j - 7 * x_)
  let xu := v4floor (v4mulS j nsz)
  let yu := v4floor (v4subv j (v4mulS xu (gf 7.0)))
  -- x = x_ * ns.x + vec4(0,1,2,3); y = y_ * ns.x + vec4(0,1,2,3)
  let xv := v4addv (v4mulS xu nsx) (v4 (gf 0.0) (gf 1.0) (gf 2.0) (gf 3.0))
  let yv := v4addv (v4mulS yu nsx) (v4 (gf 0.0) (gf 1.0) (gf 2.0) (gf 3.0))
  -- h = 1 - abs(x) - abs(y)
  let hv := v4subv (v4rsubS (gf 1.0) (v4abs xv)) (v4abs yv)
  -- b0 = vec4(x.xy, y.xy); b1 = vec4(x.zw, y.zw)
  let b0 := v4 xv.x xv.y yv.x yv.y
  let b1 := v4 xv.z xv.w yv.z yv.w
  -- s0 = floor(b0)*2 + 1; s1 = floor(b1)*2 + 1; sh = -step(h, vec4(0))
  let s0 := v4addS (v4mulS (v4floor b0) (gf 2.0)) (gf 1.0)
  let s1 := v4addS (v4mulS (v4floor b1) (gf 2.0)) (gf 1.0)
  let sh := v4neg (v4 (gstep hv.x (gf 0.0)) (gstep hv.y (gf 0.0))
    (gstep hv.z (gf 0.0)) (gstep hv.w (gf 0.0)))
  -- a0 = b0.xzyw + s0.xzyw * sh.xxyy; a1 = b1.xzyw + s1.xzyw * sh.zzww
  let a0 := v4addv (v4 b0.x b0.z b0.y b0.w)
    (v4mulv (v4 s0.x s0.z s0.y s0.w) (v4 sh.x sh.x sh.y sh.y))
  let a1 := v4addv (v4 b1.x b1.z b1.y b1.w)
    (v4mulv (v4 s1.x s1.z s1.y s1.w) (v4 sh.z sh.z sh.w sh.w))
  -- p0 .. p3
  let p0 := v3 a0.x a0.y hv.x
  let p1 := v3 a0.z a0.w hv.y
  let p2 := v3 a1.x a1.y hv.z
  let p3 := v3 a1.z a1.w hv.w
  -- norm = inversesqrt(vec4(dot(p0,p0), ..)); p0 *= norm.x; ..
  let norm0 := ginversesqrt (gdot3 p0 p0)
  let norm1 := ginversesqrt (gdot3 p1 p1)
  let norm2 := ginversesqrt (gdot3 p2 p2)
  let norm3 := ginversesqrt (gdot3 p3 p3)
  let q0 := v3mulS p0 norm0
  let q1 := v3mulS p1 norm1
  let q2 := v3mulS p2 norm2
  let q3 := v3mulS p3 norm3
  -- m = max(0.6 - vec4(dot(x0,x0), ..), 0); m = m * m
  let m := v4 (gmax (gsub (gf 0.6) (gdot3 x0 x0)) (gf 0.0))
    (gmax (gsub (gf 0.6) (gdot3 x1 x1)) (gf 0.0))
    (gmax (gsub (gf 0.6) (gdot3 x2 x2)) (gf 0.0))
    (gmax (gsub (gf 0.6) (gdot3 x3 x3)) (gf 0.0))
  let m2 := v4mulv m m
  -- return 42 * dot(m*m, vec4(dot(p0,x0), dot(p1,x1), dot(p2,x2), dot(p3,x3)))
  gmul (gf 42.0)
    (gdot4 (v4mulv m2 m2)
      (v4 (gdot3 q0 x0) (gdot3 q1 x1) (gdot3 q2 x2) (gdot3 q3 x3)))

/-! ## The rich variant vertex shader main() in the definedness model -/

/-- The per-vertex inputs and uniforms of the rich variant vertex shader.
The instance matrix is given by its four columns (GLSL mat4 is column
major; column 3 holds the instance translation). -/
structure RichShaderInput where
  posX : GF
  posY : GF
  posZ : GF
  col0 : GVec4
  col1 : GVec4
  col2 : GVec4
  col3 : GVec4
  aBladeHeight : GF
  aStiffness : GF
  aPhaseOffset : GF
  uTime : GF
  uWindSpeed : GF
  uWindDirX : GF
  uWindDirY : GF
  uWindDirZ : GF
  uWindNoiseFactor : GF
  uWindTurbulence : GF
  uWindIntensity : GF
  uBladeHeight : GF
  uGustFrequency : GF
  uGustIntensity : GF
  uMicroMovement : GF
  uWavePropagation : GF

/-- The body of the rich variant vertex shader main(), transcribed in
source order into the definedness model; produces the final sway scalar
and the displaced world position (the color varying and the projection
are omitted as irrelevant to the wind model).  Transcribed from source. -/
noncomputable def richShaderEval (inp : RichShaderInput) : GF × GVec3 :=
  let instPosX := inp.col3.x
  let instPosZ := inp.col3.z
  let windTime := gmul inp.uTime inp.uWindSpeed
  let noise1 := snoiseG (v3 (gmul instPosX (gf 0.15)) (gmul instPosZ (gf 0.15))
    (gmul windTime (gf 0.3)))
  let noise2 := snoiseG (v3 (gmul instPosX (gf 0.1)) (gmul instPosZ (gf 0.1))
    (gmul windTime (gf 0.2)))
  let noise3 := snoiseG (v3 (gmul instPosX (gf 0.05)) (gmul instPosZ (gf 0.05))
    (gmul windTime (gf 0.1)))
  let heightRatio := gdiv inp.aBladeHeight inp.uBladeHeight
  let scaledY := gmul inp.posY heightRatio
  let heightFactor := gpow (gdiv scaledY inp.aBladeHeight) (gf 2.0)
  let windVector := gnormalize3 (v3 inp.uWindDirX inp.uWindDirY inp.uWindDirZ)
  let spatialWave := gadd (gmul (gsin (gadd (gadd (gmul instPosX inp.uWavePropagation)
    (gmul instPosZ inp.uWavePropagation)) (gmul windTime (gf 0.5)))) (gf 0.5)) (gf 0.5)
  let gustTime := gmul windTime inp.uGustFrequency
  let gust := gmul (gpow (gadd (gmul (gsin gustTime) (gf 0.5)) (gf 0.5)) (gf 3.0))
    inp.uGustIntensity
  let individualPhase := gmul (gsin (gadd (gmul windTime (gf 0.7)) inp.aPhaseOffset))
    inp.uMicroMovement
  let windSignal := gmul (gmul
    (gadd (gadd (gadd (gadd (gadd
      (gmul (gsin (gadd (gadd windTime (gmul noise1 (gf 2.0))) (gmul instPosX (gf 0.01)))) (gf 0.5))
      (gmul (gcos (gadd (gadd (gmul windTime (gf 0.5)) (gmul noise2 (gf 2.0))) (gmul instPosZ (gf 0.01)))) (gf 0.3)))
      (gmul (gsin (gadd (gmul windTime (gf 0.2)) (gmul noise3 (gf 1.0)))) (gf 0.2)))
      gust)
      (gmul spatialWave (gf 0.3)))
      individualPhase)
    inp.uWindTurbulence) inp.uWindIntensity
  let windSignal := gmul windSignal (gdiv (gf 1.0) inp.aStiffness)
  let sway := gmul (gmul windSignal heightFactor)
    (gadd (gf 1.0) (gmul inp.uWindNoiseFactor (gadd noise1 noise2)))
  let wpX := gadd (gadd (gadd (gmul inp.col0.x inp.posX) (gmul inp.col1.x scaledY))
    (gmul inp.col2.x inp.posZ)) inp.col3.x
  let wpY := gadd (gadd (gadd (gmul inp.col0.y inp.posX) (gmul inp.col1.y scaledY))
    (gmul inp.col2.y inp.posZ)) inp.col3.y
  let wpZ := gadd (gadd (gadd (gmul inp.col0.z inp.posX) (gmul inp.col1.z scaledY))
    (gmul inp.col2.z inp.posZ)) inp.col3.z
  let wpX := gadd wpX (gmul (gmul windVector.x sway) (gf 2.0))
  let wpZ := gadd wpZ (gmul (gmul windVector.z sway) (gf 2.0))
  let wpY := gadd wpY (gmul (gmul (gabs sway) (gf 0.1)) scaledY)
  (sway, v3 wpX wpY wpZ)

/-- The sway the rich shader computes for a vertex. -/
noncomputable def richShaderSway (inp : RichShaderInput) : GF :=
  (richShaderEval inp).1

/-- The displaced world position the rich shader computes for a vertex. -/
noncomputable def richShaderWorldPos (inp : RichShaderInput) : GVec3 :=
  (richShaderEval inp).2

/-- An identity instance matrix column set and otherwise default, finite
shader inputs: vertex (0, 1, 0), blade height attribute 15, stiffness 1,
phase 0, the creation-default uniforms of the rich variant. -/
noncomputable def benignRichInput : RichShaderInput where
  posX := gf 0
  posY := gf 1
  posZ := gf 0
  col0 := v4 (gf 1) (gf 0) (gf 0) (gf 0)
  col1 := v4 (gf 0) (gf 1) (gf 0) (gf 0)
  col2 := v4 (gf 0) (gf 0) (gf 1) (gf 0)
  col3 := v4 (gf 0) (gf 0) (gf 0) (gf 1)
  aBladeHeight := gf 15
  aStiffness := gf 1
  aPhaseOffset := gf 0
  uTime := gf 0
  uWindSpeed := gf 3.0
  uWindDirX := gf 1
  uWindDirY := gf 0
  uWindDirZ := gf 1
  uWindNoiseFactor := gf 1.0
  uWindTurbulence := gf 0.7
  uWindIntensity := gf 1.4
  uBladeHeight := gf 15
  uGustFrequency := gf 0.15
  uGustIntensity := gf 0.35
  uMicroMovement := gf 0.2
  uWavePropagation := gf 0.05

/-- The benign input with the per-instance blade height attribute zero,
as produced by a field built with bladeHeight 0 (a configuration the
error-handling design says is accepted). -/
noncomputable def zeroHeightRichInput : RichShaderInput :=
  { benignRichInput with aBladeHeight := gf 0 }

/-- The benign input with a zero-length wind direction supplied by the
caller. -/
noncomputable def zeroDirRichInput : RichShaderInput :=
  { benignRichInput with uWindDirX := gf 0, uWindDirY := gf 0, uWindDirZ := gf 0 }

/-! ## Concrete inputs used by counterexamples and witnesses -/

/-- The default configuration with grassBlades set to 0. -/
def cfgZeroBlades : GrassConfig := { grassBlades := 0 }

/-- Simple variant uniforms with a previously set wind speed of 7. -/
noncomputable def simpleUniformsSpeed7 : SimpleWindUniforms :=
  { defaultSimpleUniforms with uWindSpeed := 7 }

/-- An options object with every field supplied (the values the GUI panel
passes). -/
noncomputable def fullWindOptions : WindUpdateOptions where
  windSpeed := some 3.0
  windDirection := some (1, 0, 1)
  windIntensity := some 1.4
  windTurbulence := some 0.7
  gustFrequency := some 0.15
  gustIntensity := some 0.35
  microMovement := some 0.2
  wavePropagation := some 0.05

/-! # Theorems -/

/-! ## Helper lemmas: definedness model -/

theorem gmul_none (a : GF) : gmul a none = none := by
  cases a <;> rfl

theorem none_gmul (a : GF) : gmul none a = none := by
  cases a <;> rfl

theorem gadd_none (a : GF) : gadd a none = none := by
  cases a <;> rfl

theorem none_gadd (a : GF) : gadd none a = none := by
  cases a <;> rfl

theorem gpow_none_left (a : GF) : gpow none a = none := by
  cases a <;> rfl

theorem gmul_gf (a b : ℝ) : gmul (gf a) (gf b) = gf (a * b) := rfl

theorem gadd_gf (a b : ℝ) : gadd (gf a) (gf b) = gf (a + b) := rfl

theorem gdiv_gf (a b : ℝ) : gdiv (gf a) (gf b) = if b = 0 then none else gf (a / b) := rfl

theorem ginversesqrt_gf (a : ℝ) :
    ginversesqrt (gf a) = if a ≤ 0 then none else gf (1 / Real.sqrt a) := rfl

/-! ## Helper lemmas: typed arrays -/

theorem JsFloatArray.setAt_len (a : JsFloatArray) (i : ℤ) (v : ℝ) :
    (a.setAt i v).len = a.len := by
  unfold JsFloatArray.setAt
  split <;> rfl

theorem JsFloatArray.setAt_data_ne (a : JsFloatArray) (i : ℤ) (v : ℝ) (j : ℤ)
    (h : j ≠ i) : (a.setAt i v).data j = a.data j := by
  unfold JsFloatArray.setAt
  split <;> simp [h]

theorem JsFloatArray.setAt_data_eq (a : JsFloatArray) (i : ℤ) (v : ℝ)
    (h0 : 0 ≤ i) (h1 : i < a.len) : (a.setAt i v).data i = v := by
  unfold JsFloatArray.setAt
  rw [if_pos ⟨h0, h1⟩]
  simp

theorem bladeMiddleWrites_len (aH w : ℝ) (vc : ℤ) (r : ℕ → ℝ) (a : JsFloatArray) :
    ∀ k, (bladeMiddleWrites aH w vc r a k).len = a.len := by
  intro k
  induction k with
  | zero => rfl
  | succ k ih =>
    simp only [bladeMiddleWrites, JsFloatArray.setAt_len]
    exact ih

theorem bladeMiddleWrites_data_outside (aH w : ℝ) (vc : ℤ) (r : ℕ → ℝ)
    (a : JsFloatArray) :
    ∀ (k : ℕ) (j : ℤ), (j < 3 ∨ 3 * (k : ℤ) + 3 ≤ j) →
      (bladeMiddleWrites aH w vc r a k).data j = a.data j := by
  intro k
  induction k with
  | zero => intro j _; rfl
  | succ k ih =>
    intro j hj
    have hk : ((k : ℤ) + 1) = ((k + 1 : ℕ) : ℤ) := by push_cast; ring
    have h1 : j ≠ 3 * ((k + 1 : ℕ) : ℤ) + 2 := by omega
    have h2 : j ≠ 3 * ((k + 1 : ℕ) : ℤ) + 1 := by omega
    have h3 : j ≠ 3 * ((k + 1 : ℕ) : ℤ) := by omega
    simp only [bladeMiddleWrites]
    rw [JsFloatArray.setAt_data_ne _ _ _ _ h1, JsFloatArray.setAt_data_ne _ _ _ _ h2,
      JsFloatArray.setAt_data_ne _ _ _ _ h3]
    exact ih j (by omega)

/-! ## Claim C1: the raw wind signal -/

/-- C1 counterexample: the simple variant raw wind signal does not equal
the spec weighted sum (noise3 term omitted).  At windTime 0 with all
noise, position, gust, wave and phase inputs 0 and turbulence and
intensity 1, the simple variant yields 0.5 while the spec sum yields
0.3. -/
theorem simpleWindSignal_ne_spec :
    simpleWindSignal 0 0 0 1 1 ≠ specWindSignalNo3 0 0 0 0 0 0 0 0 1 1 := by
  norm_num [simpleWindSignal, specWindSignalNo3, Real.sin_zero, Real.cos_zero]

/-- C1 (amended): the rich variant raw wind signal equals the spec
weighted sum - sin(windTime + noise1 x 2 + worldX x 0.01) x 0.5 +
cos(windTime x 0.5 + noise2 x 2 + worldZ x 0.01) x 0.3 +
sin(windTime x 0.2 + noise3) x 0.2 + gust + spatialWave x 0.3 +
individualPhase, multiplied by turbulence x intensity.  The simple
variant computes a different signal (see the counterexample). -/
theorem richWindSignal_eq_spec (windTime noise1 noise2 noise3 posX posZ gust
    spatialWave individualPhase turbulence intensity : ℝ) :
    richWindSignal windTime noise1 noise2 noise3 posX posZ gust
        spatialWave individualPhase turbulence intensity =
      specWindSignal windTime noise1 noise2 noise3 posX posZ gust
        spatialWave individualPhase turbulence intensity := by
  unfold richWindSignal specWindSignal
  norm_num
  ring

/-! ## Claim C2: updateWind and omitted fields -/

/-- C2 counterexample: calling the simple variant updateWind with every
field omitted does not retain the previously set wind speed 7; the
uniform is reset to the destructuring default 5.5. -/
theorem updateWindSimple_resets_speed :
    (updateWindSimple 0 0 emptyWindOptions simpleUniformsSpeed7).uWindSpeed ≠
      simpleUniformsSpeed7.uWindSpeed := by
  norm_num [updateWindSimple, emptyWindOptions, simpleUniformsSpeed7,
    defaultSimpleUniforms]

/-- C2 (amended): updateWind does not fall back to previously set values.
The post-call wind uniforms are independent of the pre-call state (so an
omitted field is reset to a fixed default, never retained): (a) the
simple variant post-state wind fields agree across any two prior states;
(b) the non-wind uniforms (colors, blade dimensions) are the only ones
retained; (c) with every field omitted the simple variant resets to the
constants 5.5, (1,0,1), 1.0, 0.8; (d) the rich variant post-state wind
fields (on both the ok and the error path) likewise agree across any two
prior states. -/
theorem updateWind_post_state_independent :
    (∀ (t nr : ℝ) (opts : WindUpdateOptions) (u1 u2 : SimpleWindUniforms),
      (updateWindSimple t nr opts u1).uWindSpeed =
          (updateWindSimple t nr opts u2).uWindSpeed ∧
      (updateWindSimple t nr opts u1).uWindDirection =
          (updateWindSimple t nr opts u2).uWindDirection ∧
      (updateWindSimple t nr opts u1).uWindIntensity =
          (updateWindSimple t nr opts u2).uWindIntensity ∧
      (updateWindSimple t nr opts u1).uWindTurbulence =
          (updateWindSimple t nr opts u2).uWindTurbulence ∧
      (updateWindSimple t nr opts u1).uTime =
          (updateWindSimple t nr opts u2).uTime ∧
      (updateWindSimple t nr opts u1).uWindNoiseFactor =
          (updateWindSimple t nr opts u2).uWindNoiseFactor) ∧
    (∀ (t nr : ℝ) (opts : WindUpdateOptions) (u : SimpleWindUniforms),
      (updateWindSimple t nr opts u).uColorTop = u.uColorTop ∧
      (updateWindSimple t nr opts u).uColorBottom = u.uColorBottom ∧
      (updateWindSimple t nr opts u).uBladeHeight = u.uBladeHeight ∧
      (updateWindSimple t nr opts u).uBladeWidth = u.uBladeWidth) ∧
    (∀ (t nr : ℝ) (u : SimpleWindUniforms),
      (updateWindSimple t nr emptyWindOptions u).uWindSpeed = 5.5 ∧
      (updateWindSimple t nr emptyWindOptions u).uWindDirection = (1, 0, 1) ∧
      (updateWindSimple t nr emptyWindOptions u).uWindIntensity = 1.0 ∧
      (updateWindSimple t nr emptyWindOptions u).uWindTurbulence = 0.8) ∧
    (∀ (cg ci t nr : ℝ) (opts : WindUpdateOptions) (u1 u2 : WindUniforms),
      (updateWindRich cg ci t nr opts u1).map (fun r =>
          (r.uWindSpeed, r.uWindDirection, r.uWindIntensity, r.uWindTurbulence,
           r.uGustFrequency, r.uGustIntensity, r.uMicroMovement,
           r.uWavePropagation, r.uTime, r.uWindNoiseFactor)) =
        (updateWindRich cg ci t nr opts u2).map (fun r =>
          (r.uWindSpeed, r.uWindDirection, r.uWindIntensity, r.uWindTurbulence,
           r.uGustFrequency, r.uGustIntensity, r.uMicroMovement,
           r.uWavePropagation, r.uTime, r.uWindNoiseFactor))) := by
  refine ⟨?_, ?_, ?_, ?_⟩
  · intro t nr opts u1 u2
    simp [updateWindSimple]
  · intro t nr opts u
    simp [updateWindSimple]
  · intro t nr u
    simp [updateWindSimple, emptyWindOptions]
  · intro cg ci t nr opts u1 u2
    rcases hm : opts.microMovement with _ | m <;>
      rcases hw : opts.wavePropagation with _ | w <;>
      simp [updateWindRich, hm, hw, Except.map]

/-! ## Claim C10: the temporal dead zone in the rich updateWind -/

/-- C10: in the rich variant, any updateWind call whose options omit
microMovement or wavePropagation throws a ReferenceError (the
destructuring defaults for those two fields read the binding being
initialized), and a call supplying both completes normally. -/
theorem updateWindRich_tdz :
    (∀ (cg ci t nr : ℝ) (opts : WindUpdateOptions) (u : WindUniforms),
      opts.microMovement = none ∨ opts.wavePropagation = none →
      updateWindRich cg ci t nr opts u = .error .referenceError) ∧
    (∀ (cg ci t nr : ℝ) (opts : WindUpdateOptions) (u : WindUniforms) (m w : ℝ),
      opts.microMovement = some m → opts.wavePropagation = some w →
      ∃ u2, updateWindRich cg ci t nr opts u = .ok u2) := by
  constructor
  · intro cg ci t nr opts u h
    rcases hm : opts.microMovement with _ | m <;>
      rcases hw : opts.wavePropagation with _ | w <;>
      simp [updateWindRich, hm, hw] <;> simp [hm, hw] at h
  · intro cg ci t nr opts u m w hm hw
    unfold updateWindRich
    rw [hm, hw]
    exact ⟨_, rfl⟩

/-- C10 witness: with every field omitted the rich updateWind throws, and
with every field supplied it completes. -/
theorem updateWindRich_tdz_witness :
    updateWindRich 0.15 0.35 1 0 emptyWindOptions defaultRichUniforms =
        .error .referenceError ∧
    ∃ u2, updateWindRich 0.15 0.35 1 0 fullWindOptions defaultRichUniforms =
        .ok u2 :=
  ⟨updateWindRich_tdz.1 0.15 0.35 1 0 emptyWindOptions defaultRichUniforms
      (Or.inl rfl),
   updateWindRich_tdz.2 0.15 0.35 1 0 fullWindOptions defaultRichUniforms
      0.2 0.05 rfl rfl⟩

/-! ## Claim C3: build-time validation -/

/-- C3 counterexample: a configuration with instance count 0 (hence
count ≤ 0) is not rejected - createGrassMesh creates the field. -/
theorem createGrassMesh_zero_blades_ok :
    cfgZeroBlades.grassBlades ≤ 0 ∧
    ∃ f, createGrassMeshRich cfgZeroBlades (fun _ => 0) (fun _ => 0) (fun _ => 0) =
      .ok f := by
  constructor
  · norm_num [cfgZeroBlades]
  · have h1 : ¬ cfgZeroBlades.grassBlades < 0 := by norm_num [cfgZeroBlades]
    have h2 : ¬ cfgZeroBlades.verticesPerBlade * 3 < 0 := by norm_num [cfgZeroBlades]
    have h3 : ¬ (cfgZeroBlades.verticesPerBlade - 2) * 3 < 0 := by
      norm_num [cfgZeroBlades]
    have h4 : ¬ cfgZeroBlades.grassBlades * 16 < 0 := by norm_num [cfgZeroBlades]
    simp only [createGrassMeshRich, generateBladeVerticesRich,
      generateBladeIndicesRich, jsFillFloatArray, jsNewFloatArray, jsNewUintArray,
      h1, h2, h3, h4, if_false, bind, Except.bind, pure, Except.pure]
    exact ⟨_, rfl⟩

/-- C3 (amended): createGrassMesh performs no configuration validation.
Every configuration with a non-negative instance count and at least two
vertices per blade creates a field (including count 0 and vertex count 2,
and any real height and width); the only build-time failure is a
RangeError from constructing a typed array with a negative length, which
happens exactly when a computed array length is negative (for example a
negative instance count). -/
theorem createGrassMesh_no_validation :
    (∀ (cfg : GrassConfig) (rA rV rP : ℕ → ℝ), 0 ≤ cfg.grassBlades →
      2 ≤ cfg.verticesPerBlade →
      ∃ f, createGrassMeshRich cfg rA rV rP = .ok f) ∧
    (∀ (cfg : GrassConfig) (rA rV rP : ℕ → ℝ), cfg.grassBlades < 0 →
      createGrassMeshRich cfg rA rV rP = .error .rangeError) := by
  constructor
  · intro cfg rA rV rP hb hv
    have h1 : ¬ cfg.grassBlades < 0 := by omega
    have h2 : ¬ cfg.verticesPerBlade * 3 < 0 := by omega
    have h3 : ¬ (cfg.verticesPerBlade - 2) * 3 < 0 := by omega
    have h4 : ¬ cfg.grassBlades * 16 < 0 := by omega
    simp only [createGrassMeshRich, generateBladeVerticesRich,
      generateBladeIndicesRich, jsFillFloatArray, jsNewFloatArray, jsNewUintArray,
      h1, h2, h3, h4, if_false, bind, Except.bind, pure, Except.pure]
    exact ⟨_, rfl⟩
  · intro cfg rA rV rP hb
    simp only [createGrassMeshRich, jsFillFloatArray, if_pos hb, bind, Except.bind]

/-- C3 witness: the default configuration (100000 blades, 3 vertices per
blade) satisfies the hypotheses and creates a field, and the same holds
at the boundary configuration with 0 blades. -/
theorem createGrassMesh_no_validation_witness :
    ∃ f, createGrassMeshRich {} (fun _ => 0) (fun _ => 0) (fun _ => 0) = .ok f :=
  createGrassMesh_no_validation.1 {} (fun _ => 0) (fun _ => 0) (fun _ => 0)
    (by norm_num) (by norm_num)

/-! ## Claim C4: blade index validity -/

/-- C4: evaluated at verticesPerBlade 3, the rich variant fan index list
has length (3-2)*3 and references only the three existing vertices, but
the simple variant strip index list (length (3-1)*6) references vertex
indices 3, 4 and 5 while its vertex builder generates exactly 3 vertices
(a 9-float array) - the back-row vertices the strip indices address are
never generated. -/
theorem bladeIndices_vc3_eval :
    ∃ fan strip verts,
      generateBladeIndicesRich 3 = .ok fan ∧
      generateBladeIndicesSimple 3 = .ok strip ∧
      generateBladeVerticesSimple 15 0.1 3 (fun _ => 0) = .ok verts ∧
      fan.len = (3 - 2) * 3 ∧
      fan.data 0 = 0 ∧ fan.data 1 = 1 ∧ fan.data 2 = 2 ∧
      strip.len = (3 - 1) * 6 ∧
      verts.len = 3 * 3 ∧
      strip.data 2 = 3 ∧ strip.data 11 = 5 ∧ ¬ strip.data 2 < 3 := by
  refine ⟨_, _, _, rfl, rfl, rfl, by decide, by decide, by decide, by decide,
    by decide, by decide, by decide, by decide, by decide⟩


/-! ## Claim C5: blade vertex layout -/

/-- Reads of the base and tip slots of the rich blade vertex array: the
middle-vertex loop only writes slots 3 .. 3(vc-2)+2, so the base slots
0..2 and the tip slots 3(vc-1) .. 3(vc-1)+2 hold what the base and tip
stores put there. -/
theorem bladeChain_reads (w aH : ℝ) (vc : ℤ) (r : ℕ → ℝ) (hvc : 3 ≤ vc) :
    (bladeMiddleWrites aH w vc r
        (JsFloatArray.mk (vc * 3) (fun _ => 0) |>.setAt 0 (-(w / 2)) |>.setAt 1 0
          |>.setAt 2 0 |>.setAt ((vc - 1) * 3) (w / 2)
          |>.setAt ((vc - 1) * 3 + 1) aH |>.setAt ((vc - 1) * 3 + 2) 0)
        (vc - 2).toNat).len = vc * 3 ∧
    ∀ j : ℤ, (j = 0 ∨ j = 1 ∨ j = 2 ∨ j = (vc - 1) * 3 ∨ j = (vc - 1) * 3 + 1 ∨
        j = (vc - 1) * 3 + 2) →
      (bladeMiddleWrites aH w vc r
        (JsFloatArray.mk (vc * 3) (fun _ => 0) |>.setAt 0 (-(w / 2)) |>.setAt 1 0
          |>.setAt 2 0 |>.setAt ((vc - 1) * 3) (w / 2)
          |>.setAt ((vc - 1) * 3 + 1) aH |>.setAt ((vc - 1) * 3 + 2) 0)
        (vc - 2).toNat).data j =
      (JsFloatArray.mk (vc * 3) (fun _ => 0) |>.setAt 0 (-(w / 2)) |>.setAt 1 0
          |>.setAt 2 0 |>.setAt ((vc - 1) * 3) (w / 2)
          |>.setAt ((vc - 1) * 3 + 1) aH |>.setAt ((vc - 1) * 3 + 2) 0).data j := by
  have hKz : (((vc - 2).toNat : ℕ) : ℤ) = vc - 2 := Int.toNat_of_nonneg (by omega)
  constructor
  · rw [bladeMiddleWrites_len]
    simp [JsFloatArray.setAt_len]
  · intro j hj
    apply bladeMiddleWrites_data_outside
    rw [hKz]
    omega

/-- C5: for height > 0, variation in [0,1), vertex count at least 3 and a
random draw in [0,1), the rich variant blade builder produces a vertex
array of exactly vertexCount vertices (length vertexCount x 3), base
vertex (-width/2, 0, 0), tip vertex (width/2, actualHeight, 0) with
actualHeight = height x (1 - variation/2 + rand x variation), and the tip
y in [height x (1 - variation/2), height x (1 + variation/2)]. -/
theorem generateBladeVertices_shape (variation h w : ℝ) (vc : ℤ) (r : ℕ → ℝ)
    (hvc : 3 ≤ vc) (hh : 0 < h) (hv0 : 0 ≤ variation) (hv1 : variation < 1)
    (hr0 : 0 ≤ r 0) (hr1 : r 0 < 1) :
    ∃ arr, generateBladeVerticesRich variation h w vc r = .ok arr ∧
      arr.len = vc * 3 ∧
      arr.data 0 = -(w / 2) ∧ arr.data 1 = 0 ∧ arr.data 2 = 0 ∧
      arr.data ((vc - 1) * 3) = w / 2 ∧
      arr.data ((vc - 1) * 3 + 1) = h * (1 - variation / 2 + r 0 * variation) ∧
      arr.data ((vc - 1) * 3 + 2) = 0 ∧
      h * (1 - variation / 2) ≤ arr.data ((vc - 1) * 3 + 1) ∧
      arr.data ((vc - 1) * 3 + 1) ≤ h * (1 + variation / 2) := by
  have hlen : ¬ vc * 3 < 0 := by omega
  have heq : generateBladeVerticesRich variation h w vc r =
      .ok (bladeMiddleWrites (h * (1 - variation / 2 + r 0 * variation)) w vc r
        (JsFloatArray.mk (vc * 3) (fun _ => 0) |>.setAt 0 (-(w / 2)) |>.setAt 1 0
          |>.setAt 2 0 |>.setAt ((vc - 1) * 3) (w / 2)
          |>.setAt ((vc - 1) * 3 + 1) (h * (1 - variation / 2 + r 0 * variation))
          |>.setAt ((vc - 1) * 3 + 2) 0)
        (vc - 2).toNat) := by
    simp only [generateBladeVerticesRich, jsNewFloatArray, hlen, if_false, bind,
      Except.bind, pure, Except.pure]
  obtain ⟨hL, hread⟩ := bladeChain_reads w (h * (1 - variation / 2 + r 0 * variation))
    vc r hvc
  refine ⟨_, heq, hL, ?_, ?_, ?_, ?_, ?_, ?_, ?_, ?_⟩
  · rw [hread 0 (by omega)]
    rw [JsFloatArray.setAt_data_ne _ _ _ _ (by omega),
      JsFloatArray.setAt_data_ne _ _ _ _ (by omega),
      JsFloatArray.setAt_data_ne _ _ _ _ (by omega),
      JsFloatArray.setAt_data_ne _ _ _ _ (by omega),
      JsFloatArray.setAt_data_ne _ _ _ _ (by omega)]
    exact JsFloatArray.setAt_data_eq _ _ _ (by omega) (by simp only []; omega)
  · rw [hread 1 (by omega)]
    rw [JsFloatArray.setAt_data_ne _ _ _ _ (by omega),
      JsFloatArray.setAt_data_ne _ _ _ _ (by omega),
      JsFloatArray.setAt_data_ne _ _ _ _ (by omega),
      JsFloatArray.setAt_data_ne _ _ _ _ (by omega)]
    exact JsFloatArray.setAt_data_eq _ _ _ (by omega)
      (by simp only [JsFloatArray.setAt_len]; omega)
  · rw [hread 2 (by omega)]
    rw [JsFloatArray.setAt_data_ne _ _ _ _ (by omega),
      JsFloatArray.setAt_data_ne _ _ _ _ (by omega),
      JsFloatArray.setAt_data_ne _ _ _ _ (by omega)]
    exact JsFloatArray.setAt_data_eq _ _ _ (by omega)
      (by simp only [JsFloatArray.setAt_len]; omega)
  · rw [hread ((vc - 1) * 3) (by omega)]
    rw [JsFloatArray.setAt_data_ne _ _ _ _ (by omega),
      JsFloatArray.setAt_data_ne _ _ _ _ (by omega)]
    exact JsFloatArray.setAt_data_eq _ _ _ (by omega)
      (by simp only [JsFloatArray.setAt_len]; omega)
  · rw [hread ((vc - 1) * 3 + 1) (by omega)]
    rw [JsFloatArray.setAt_data_ne _ _ _ _ (by omega)]
    exact JsFloatArray.setAt_data_eq _ _ _ (by omega)
      (by simp only [JsFloatArray.setAt_len]; omega)
  · rw [hread ((vc - 1) * 3 + 2) (by omega)]
    exact JsFloatArray.setAt_data_eq _ _ _ (by omega)
      (by simp only [JsFloatArray.setAt_len]; omega)
  · rw [hread ((vc - 1) * 3 + 1) (by omega)]
    rw [JsFloatArray.setAt_data_ne _ _ _ _ (by omega)]
    rw [JsFloatArray.setAt_data_eq _ _ _ (by omega)
      (by simp only [JsFloatArray.setAt_len]; omega)]
    nlinarith [mul_nonneg hr0 hv0]
  · rw [hread ((vc - 1) * 3 + 1) (by omega)]
    rw [JsFloatArray.setAt_data_ne _ _ _ _ (by omega)]
    rw [JsFloatArray.setAt_data_eq _ _ _ (by omega)
      (by simp only [JsFloatArray.setAt_len]; omega)]
    nlinarith [mul_le_mul_of_nonneg_right hr1.le hv0]

/-- C5 witness: the scenario height 15, width 0.5, variation 0.4,
vertexCount 3 with the random draw 0: three vertices (9 floats), base at
(-0.25, 0, 0), tip y equal to 15 x (1 - 0.2) = 12, inside [12, 18]. -/
theorem generateBladeVertices_shape_witness :
    ∃ arr, generateBladeVerticesRich 0.4 15 0.5 3 (fun _ => 0) = .ok arr ∧
      arr.len = 3 * 3 ∧
      arr.data 0 = -(0.5 / 2) ∧ arr.data 1 = 0 ∧ arr.data 2 = 0 ∧
      arr.data ((3 - 1) * 3) = 0.5 / 2 ∧
      arr.data ((3 - 1) * 3 + 1) = 15 * (1 - 0.4 / 2 + (fun _ : ℕ => (0 : ℝ)) 0 * 0.4) ∧
      arr.data ((3 - 1) * 3 + 2) = 0 ∧
      15 * (1 - 0.4 / 2) ≤ arr.data ((3 - 1) * 3 + 1) ∧
      arr.data ((3 - 1) * 3 + 1) ≤ 15 * (1 + 0.4 / 2) :=
  generateBladeVertices_shape 0.4 15 0.5 3 (fun _ => 0) (by norm_num) (by norm_num)
    (by norm_num) (by norm_num) (by norm_num) (by norm_num)

/-! ## Claim C6: instance attribute bounds -/

/-- C6: for every instance count N at least 1 and non-negative patch
size, with all Math.random draws in [0,1), the instance packer produces
exactly N instances, each with x and z in [-patchSize/2, patchSize/2],
y = 0, stiffness in [0.7, 1.3] and phase offset in [0, 2 pi). -/
theorem packInstances_bounds (n : ℕ) (h v patch : ℝ) (rAttr rPhase rMat : ℕ → ℝ)
    (hn : 1 ≤ n) (hp : 0 ≤ patch)
    (hA : ∀ j, 0 ≤ rAttr j ∧ rAttr j < 1)
    (hP : ∀ j, 0 ≤ rPhase j ∧ rPhase j < 1)
    (hM : ∀ j, 0 ≤ rMat j ∧ rMat j < 1) :
    (packInstances n h v patch rAttr rPhase rMat).length = n ∧
    ∀ inst ∈ packInstances n h v patch rAttr rPhase rMat,
      -(patch / 2) ≤ inst.posX ∧ inst.posX ≤ patch / 2 ∧
      -(patch / 2) ≤ inst.posZ ∧ inst.posZ ≤ patch / 2 ∧
      inst.posY = 0 ∧
      0.7 ≤ inst.stiffness ∧ inst.stiffness ≤ 1.3 ∧
      0 ≤ inst.phaseOffset ∧ inst.phaseOffset < 2 * Real.pi := by
  constructor
  · simp [packInstances]
  · intro inst hm
    simp only [packInstances, List.mem_map, List.mem_range] at hm
    obtain ⟨i, _, rfl⟩ := hm
    have hx0 := (hM (5 * i)).1
    have hx1 := (hM (5 * i)).2
    have hz0 := (hM (5 * i + 1)).1
    have hz1 := (hM (5 * i + 1)).2
    have hs0 := (hA (2 * i + 1)).1
    have hs1 := (hA (2 * i + 1)).2
    have hp0 := (hP i).1
    have hp1 := (hP i).2
    have hpi := Real.pi_pos
    refine ⟨by nlinarith, by nlinarith, by nlinarith, by nlinarith, rfl,
      by nlinarith, by nlinarith, ?_, ?_⟩
    · have : 0 ≤ rPhase i * Real.pi := mul_nonneg hp0 hpi.le
      nlinarith
    · nlinarith

/-- C6 witness: one instance over a 200-unit patch with all draws 0:
position (-100, 0, -100) inside the bounds, stiffness 0.7, phase 0. -/
theorem packInstances_bounds_witness :
    (packInstances 1 15 0.4 200 (fun _ => 0) (fun _ => 0) (fun _ => 0)).length = 1 ∧
    ∀ inst ∈ packInstances 1 15 0.4 200 (fun _ => 0) (fun _ => 0) (fun _ => 0),
      -((200 : ℝ) / 2) ≤ inst.posX ∧ inst.posX ≤ (200 : ℝ) / 2 ∧
      -((200 : ℝ) / 2) ≤ inst.posZ ∧ inst.posZ ≤ (200 : ℝ) / 2 ∧
      inst.posY = 0 ∧
      0.7 ≤ inst.stiffness ∧ inst.stiffness ≤ 1.3 ∧
      0 ≤ inst.phaseOffset ∧ inst.phaseOffset < 2 * Real.pi :=
  packInstances_bounds 1 15 0.4 200 (fun _ => 0) (fun _ => 0) (fun _ => 0)
    (le_refl 1) (by norm_num)
    (fun _ => by norm_num) (fun _ => by norm_num) (fun _ => by norm_num)

/-! ## Claim C9: determinism of build-time randomness -/

/-- The middle-vertex loop reads only draws 1 .. 2k of its stream. -/
theorem bladeMiddleWrites_congr (aH w : ℝ) (vc : ℤ) (r r2 : ℕ → ℝ)
    (a : JsFloatArray) :
    ∀ k, (∀ j, j ≤ 2 * k → r j = r2 j) →
      bladeMiddleWrites aH w vc r a k = bladeMiddleWrites aH w vc r2 a k := by
  intro k
  induction k with
  | zero => intro _; rfl
  | succ k ih =>
    intro hr
    simp only [bladeMiddleWrites]
    rw [ih (fun j hj => hr j (by omega)), hr (2 * (k + 1) - 1) (by omega),
      hr (2 * (k + 1)) (by omega)]

/-- C9: build-time randomness is deterministic in the drawn values - two
runs of the rich blade vertex builder whose random streams agree on the
draws the builder consumes (draw 0 and the 2(vc-2) loop draws) produce
identical vertex arrays, and two runs of the instance packer whose
streams agree on the consumed prefixes (2N attribute draws, N phase
draws, 5N placement draws) produce identical instance lists. -/
theorem build_deterministic :
    (∀ (variation h w : ℝ) (vc : ℤ) (r r2 : ℕ → ℝ),
      (∀ j, j ≤ 2 * (vc - 2).toNat → r j = r2 j) →
      generateBladeVerticesRich variation h w vc r =
        generateBladeVerticesRich variation h w vc r2) ∧
    (∀ (n : ℕ) (h v patch : ℝ) (rA rP rM rA2 rP2 rM2 : ℕ → ℝ),
      (∀ j, j < 2 * n → rA j = rA2 j) → (∀ j, j < n → rP j = rP2 j) →
      (∀ j, j < 5 * n → rM j = rM2 j) →
      packInstances n h v patch rA rP rM = packInstances n h v patch rA2 rP2 rM2) := by
  constructor
  · intro variation h w vc r r2 hr
    unfold generateBladeVerticesRich
    rw [hr 0 (by omega)]
    have hmw : ∀ aH a, bladeMiddleWrites aH w vc r a (vc - 2).toNat =
        bladeMiddleWrites aH w vc r2 a (vc - 2).toNat :=
      fun aH a => bladeMiddleWrites_congr aH w vc r r2 a _ (fun j hj => hr j hj)
    simp only [hmw]
  · intro n h v patch rA rP rM rA2 rP2 rM2 hA hP hM
    unfold packInstances
    apply List.map_congr_left
    intro i hi
    rw [List.mem_range] at hi
    rw [hA (2 * i) (by omega), hA (2 * i + 1) (by omega), hP i (by omega),
      hM (5 * i) (by omega), hM (5 * i + 1) (by omega), hM (5 * i + 2) (by omega),
      hM (5 * i + 3) (by omega), hM (5 * i + 4) (by omega)]

/-- C9 witness: at vertex count 3 the vertex builder consumes draws
0 .. 2 and the packer of one instance consumes the first 2, 1 and 5
draws of its streams, so streams that agree only there give identical
results even though they differ beyond. -/
theorem build_deterministic_witness :
    generateBladeVerticesRich 0.4 15 0.5 3 (fun _ => 0) =
      generateBladeVerticesRich 0.4 15 0.5 3 (fun j => if j ≤ 2 then 0 else 37) ∧
    packInstances 1 15 0.4 200 (fun _ => 0) (fun _ => 0) (fun _ => 0) =
      packInstances 1 15 0.4 200 (fun j => if j < 2 then 0 else 5)
        (fun j => if j < 1 then 0 else 6) (fun j => if j < 5 then 0 else 7) := by
  constructor
  · apply build_deterministic.1
    intro j hj
    have hj2 : j ≤ 2 := by simpa using hj
    simp [hj2]
  · apply build_deterministic.2 <;> intro j hj <;> simp [hj]

/-! ## Claim C8: stiffness and sway magnitude -/

/-- C8 counterexample: at the blade base (vertex y = 0) the height factor
is 0, so the sway is 0 at both stiffness 0.7 and stiffness 1.3 with all
other inputs identical - the magnitude at 0.7 is not strictly greater. -/
theorem sway_stiffness_not_strict_at_base :
    ¬ (|richVertexSwayAt 0.7 0 0 0 0 0 0 0 0 0 1 1 0 15 15 0| >
       |richVertexSwayAt 1.3 0 0 0 0 0 0 0 0 0 1 1 0 15 15 0|) := by
  have hf : richHeightFactor 0 15 15 = 0 := by
    unfold richHeightFactor richScaledY
    rw [zero_mul, zero_div, Real.zero_rpow (by norm_num)]
  simp [richVertexSwayAt, richSway, hf]

/-- C8 (amended): with identical inputs apart from stiffness, the sway
magnitude at stiffness 0.7 is at least the magnitude at stiffness 1.3,
and strictly greater whenever the sway at stiffness 1.3 is non-zero
(equality holds exactly when the stiffness-independent factor - wind
signal times height factor times noise modulation - vanishes, e.g. at
the blade base). -/
theorem sway_stiffness_antitone (windTime noise1 noise2 noise3 posX posZ gust
    spatialWave individualPhase turbulence intensity vertexY aBladeHeight
    uBladeHeight noiseFactor : ℝ) :
    |richVertexSwayAt 1.3 windTime noise1 noise2 noise3 posX posZ gust
        spatialWave individualPhase turbulence intensity vertexY aBladeHeight
        uBladeHeight noiseFactor| ≤
      |richVertexSwayAt 0.7 windTime noise1 noise2 noise3 posX posZ gust
        spatialWave individualPhase turbulence intensity vertexY aBladeHeight
        uBladeHeight noiseFactor| ∧
    (richVertexSwayAt 1.3 windTime noise1 noise2 noise3 posX posZ gust
        spatialWave individualPhase turbulence intensity vertexY aBladeHeight
        uBladeHeight noiseFactor ≠ 0 →
      |richVertexSwayAt 1.3 windTime noise1 noise2 noise3 posX posZ gust
          spatialWave individualPhase turbulence intensity vertexY aBladeHeight
          uBladeHeight noiseFactor| <
        |richVertexSwayAt 0.7 windTime noise1 noise2 noise3 posX posZ gust
          spatialWave individualPhase turbulence intensity vertexY aBladeHeight
          uBladeHeight noiseFactor|) := by
  have e : ∀ s : ℝ, richVertexSwayAt s windTime noise1 noise2 noise3 posX posZ
      gust spatialWave individualPhase turbulence intensity vertexY aBladeHeight
      uBladeHeight noiseFactor =
      (richWindSignal windTime noise1 noise2 noise3 posX posZ gust spatialWave
          individualPhase turbulence intensity *
        richHeightFactor vertexY aBladeHeight uBladeHeight *
        (1.0 + noiseFactor * (noise1 + noise2))) * (1 / s) := by
    intro s
    unfold richVertexSwayAt richSway
    ring
  rw [e 1.3, e 0.7]
  generalize richWindSignal windTime noise1 noise2 noise3 posX posZ gust
    spatialWave individualPhase turbulence intensity *
    richHeightFactor vertexY aBladeHeight uBladeHeight *
    (1.0 + noiseFactor * (noise1 + noise2)) = K
  have habs13 : |(1 : ℝ) / 1.3| = 1 / 1.3 := abs_of_pos (by norm_num)
  have habs07 : |(1 : ℝ) / 0.7| = 1 / 0.7 := abs_of_pos (by norm_num)
  constructor
  · rw [abs_mul, abs_mul, habs13, habs07]
    exact mul_le_mul_of_nonneg_left (by norm_num) (abs_nonneg K)
  · intro hne
    have hK : K ≠ 0 := by
      intro h0
      exact hne (by rw [h0, zero_mul])
    have hKpos : 0 < |K| := abs_pos.mpr hK
    rw [abs_mul, abs_mul, habs13, habs07]
    exact mul_lt_mul_of_pos_left (by norm_num) hKpos

/-- C8 witness: a tip vertex (y = 15, blade height 15) at windTime 0 with
zero noise and unit turbulence and intensity gives a non-zero sway at
stiffness 1.3, and its magnitude is strictly below the one at stiffness
0.7. -/
theorem sway_stiffness_antitone_witness :
    richVertexSwayAt 1.3 0 0 0 0 0 0 0 0 0 1 1 15 15 15 0 ≠ 0 ∧
    |richVertexSwayAt 1.3 0 0 0 0 0 0 0 0 0 1 1 15 15 15 0| <
      |richVertexSwayAt 0.7 0 0 0 0 0 0 0 0 0 1 1 15 15 15 0| := by
  have hne : richVertexSwayAt 1.3 0 0 0 0 0 0 0 0 0 1 1 15 15 15 0 ≠ 0 := by
    unfold richVertexSwayAt richSway richWindSignal richHeightFactor richScaledY
    norm_num [Real.sin_zero, Real.cos_zero, Real.one_rpow]
  exact ⟨hne, (sway_stiffness_antitone 0 0 0 0 0 0 0 0 0 1 1 15 15 15 0).2 hne⟩

/-! ## Claim C7: missing NaN guards in the rich shader -/

/-- C7: the rich vertex shader guards neither the height-factor divide
nor the wind-direction normalization.  With the per-instance blade height
attribute 0 (all other inputs finite and benign) the computed sway is
non-finite - pow(scaledY / aBladeHeight, 2.0) divides zero by zero - and
with a caller-supplied zero-length wind direction the displaced world
position is non-finite - normalize of the zero vector - instead of the
guarded, finite results the claim describes. -/
theorem richShader_unguarded_nan :
    richShaderSway zeroHeightRichInput = none ∧
    (richShaderWorldPos zeroDirRichInput).x = none := by
  constructor
  · simp only [richShaderSway, richShaderEval, zeroHeightRichInput, benignRichInput]
    norm_num [gdiv_gf, gmul_gf, gpow_none_left, gmul_none, none_gmul]
  · simp only [richShaderWorldPos, richShaderEval, zeroDirRichInput, benignRichInput]
    norm_num [gnormalize3, gdot3, v3mulS, v3, ginversesqrt_gf, gmul_gf, gadd_gf,
      gmul_none, none_gmul, gadd_none, none_gadd]

end GrassVerify
